import Mathlib

/-!
Shallow embedding of the outline-api client library (src/lib.rs).

The library is a thin HTTP client: each public method builds a request
(path, method, JSON body text) and translates the HTTP response status
into either a success value or one of a closed set of error messages.
We embed the pure decision logic directly:

* request construction is modelled by functions producing a `Request`
  record (the URL is `api_url ++ api_path`, exactly as `call_api` builds it);
* the network exchange is modelled by a value of type
  `Except TransportError Response` handed to each operation: `.error e`
  models `reqwest` failing to complete the request, `.ok r` models a
  delivered response with status code `r.status` and body text
  `r.bodyText` (`none` models a failing `response.text()` call);
* `serde_json::from_str` is modelled by `parseJson`, a recursive-descent
  recogniser of the standard JSON grammar (RFC 8259): objects, arrays,
  strings with escapes, numbers, `true`/`false`/`null`, with the four
  JSON whitespace characters.
-/

namespace OutlineApi

/-- The closed error enumeration, mirroring `enum APIError` in src/lib.rs. -/
inductive APIError where
  | UnknownServerError
  | InternalError
  | InvalidHostname
  | InvalidPort
  | PortConflict
  | InvalidDataLimit
  | AccessKeyInexistent
  | InvalidName
  | InvalidRequest
  | UnknownError
deriving DecidableEq

/-- The `Display` impl for `APIError`: the fixed message carried by each variant. -/
def APIError.message : APIError → String
  | .UnknownServerError => "An unknown server error occurred."
  | .InternalError => "An internal error occurred."
  | .InvalidHostname => "An invalid hostname or IP address was provided."
  | .InvalidPort => "The requested port wasn\x27t an integer from 1 through 65535, or the request had no port parameter."
  | .PortConflict => "The requested port was already in use by another service."
  | .InvalidDataLimit => "Invalid data limit."
  | .AccessKeyInexistent => "Access key inexistent."
  | .InvalidName => "Invalid name."
  | .InvalidRequest => "Invalid request."
  | .UnknownError => "An unknown error occurred."

/-- Endpoint constant `NAME_ENDPOINT` from src/lib.rs. -/
def NAME_ENDPOINT : String := "/name"

/-- Endpoint constant `SERVER_ENDPOINT` from src/lib.rs. -/
def SERVER_ENDPOINT : String := "/server"

/-- Endpoint constant `HOSTNAME_ENDPOINT` from src/lib.rs. -/
def HOSTNAME_ENDPOINT : String := "/server/hostname-for-access-keys"

/-- Endpoint constant `CHANGE_PORT_ENDPOINT` from src/lib.rs. -/
def CHANGE_PORT_ENDPOINT : String := "/server/port-for-new-access-keys"

/-- Endpoint constant `KEY_DATA_LIMIT_ENDPOINT` from src/lib.rs. -/
def KEY_DATA_LIMIT_ENDPOINT : String := "/server/access-key-data-limit"

/-- Endpoint constant `METRICS_ENDPOINT` from src/lib.rs. -/
def METRICS_ENDPOINT : String := "/metrics"

/-- Endpoint constant `ACCESS_KEYS_ENDPOINT` from src/lib.rs. -/
def ACCESS_KEYS_ENDPOINT : String := "/access-keys"

/-- A delivered HTTP response: the status code, and the body text
(`none` models a failing `response.text()` read). -/
structure Response where
  status : Nat
  bodyText : Option String

/-- An opaque transport-level failure (a `reqwest::Error`): the request
could not be sent or completed.  Carries an uninterpreted cause. -/
structure TransportError where
  cause : String

/-- HTTP methods used by the client. -/
inductive Method where
  | GET
  | PUT
  | POST
  | DELETE
deriving DecidableEq

/-- The outgoing request assembled by `call_api`: the URL is the base
API URL with the endpoint path appended, plus the request body text. -/
structure Request where
  method : Method
  url : String
  body : String
deriving DecidableEq

/-- The request-building part of `OutlineVPN::call_api`:
`url = format!("{}{}", self.api_url, api_path)` with the given method and body. -/
def call_api_request (api_url api_path : String) (request_method : Method) (request_body : String) : Request :=
  { method := request_method, url := api_url ++ api_path, body := request_body }

/-- JSON values, as produced by parsing (numbers keep their lexeme). -/
inductive Json where
  | null
  | bool (b : Bool)
  | num (lexeme : String)
  | str (s : String)
  | arr (elems : List Json)
  | obj (fields : List (String × Json))

/-- The double-quote character. -/
def quoteChar : Char := Char.ofNat 34

/-- The opening-brace character. -/
def lbraceChar : Char := Char.ofNat 123

/-- The closing-brace character. -/
def rbraceChar : Char := Char.ofNat 125

/-- JSON insignificant whitespace: space, tab, line feed, carriage return. -/
def isJsonWs (c : Char) : Bool :=
  c = ' ' || c = '\t' || c = '\n' || c = '\r'

/-- Drop leading JSON whitespace. -/
def skipWs : List Char → List Char
  | [] => []
  | c :: cs => if isJsonWs c then skipWs cs else c :: cs

/-- Hexadecimal digit test for \uXXXX escapes. -/
def isHexDigit (c : Char) : Bool :=
  c.isDigit || ('a' ≤ c && c ≤ 'f') || ('A' ≤ c && c ≤ 'F')

/-- Value of a hexadecimal digit. -/
def hexVal (c : Char) : Nat :=
  if c.isDigit then c.toNat - 48
  else if 'a' ≤ c && c ≤ 'f' then c.toNat - 87
  else c.toNat - 55

/-- Map a single-character escape code to the escaped character. -/
def simpleEscape (e : Char) : Option Char :=
  if e = quoteChar then some quoteChar
  else if e = '\\' then some '\\'
  else if e = '/' then some '/'
  else if e = 'b' then some (Char.ofNat 8)
  else if e = 'f' then some (Char.ofNat 12)
  else if e = 'n' then some '\n'
  else if e = 'r' then some '\r'
  else if e = 't' then some '\t'
  else none

/-- Parse the remainder of a JSON string after the opening quote:
returns the decoded characters and the input after the closing quote. -/
def parseStringRest : Nat → List Char → Option (List Char × List Char)
  | 0, _ => none
  | fuel + 1, cs =>
    match cs with
    | [] => none
    | c :: cs1 =>
      if c = quoteChar then some ([], cs1)
      else if c = '\\' then
        match cs1 with
        | 'u' :: h1 :: h2 :: h3 :: h4 :: cs2 =>
          if isHexDigit h1 && isHexDigit h2 && isHexDigit h3 && isHexDigit h4 then
            match parseStringRest fuel cs2 with
            | some (acc, rest) =>
              some (Char.ofNat (((hexVal h1 * 16 + hexVal h2) * 16 + hexVal h3) * 16 + hexVal h4) :: acc, rest)
            | none => none
          else none
        | e :: cs2 =>
          match simpleEscape e with
          | some d =>
            match parseStringRest fuel cs2 with
            | some (acc, rest) => some (d :: acc, rest)
            | none => none
          | none => none
        | [] => none
      else if c.toNat < 32 then none
      else
        match parseStringRest fuel cs1 with
        | some (acc, rest) => some (c :: acc, rest)
        | none => none

/-- Take a maximal run of decimal digits. -/
def takeDigits : List Char → List Char × List Char
  | [] => ([], [])
  | c :: cs =>
    if c.isDigit then
      match takeDigits cs with
      | (ds, rest) => (c :: ds, rest)
    else ([], c :: cs)

/-- Integer part of a JSON number: `0`, or a nonzero digit followed by digits. -/
def parseIntPart : List Char → Option (List Char × List Char)
  | [] => none
  | c :: cs =>
    if c = '0' then some ([c], cs)
    else if c.isDigit then
      match takeDigits cs with
      | (ds, rest) => some (c :: ds, rest)
    else none

/-- Optional fraction part of a JSON number: `.` followed by digits. -/
def parseFracPart : List Char → Option (List Char × List Char)
  | '.' :: cs =>
    (match cs with
     | d :: _ =>
       if d.isDigit then
         match takeDigits cs with
         | (ds, rest) => some ('.' :: ds, rest)
       else none
     | [] => none)
  | cs => some ([], cs)

/-- Optional exponent part of a JSON number: `e`/`E`, optional sign, digits. -/
def parseExpPart : List Char → Option (List Char × List Char)
  | [] => some ([], [])
  | c :: cs =>
    if c = 'e' || c = 'E' then
      match cs with
      | [] => none
      | s :: cs2 =>
        if s = '+' || s = '-' then
          match cs2 with
          | [] => none
          | d :: _ =>
            if d.isDigit then
              match takeDigits cs2 with
              | (ds, rest) => some (c :: s :: ds, rest)
            else none
        else if s.isDigit then
          match takeDigits cs with
          | (ds, rest) => some (c :: ds, rest)
        else none
    else some ([], c :: cs)

/-- Parse a JSON number, returning its lexeme. -/
def parseNumber (cs : List Char) : Option (String × List Char) :=
  match
    (match cs with
     | c :: rest => if c = '-' then ([c], rest) else (([] : List Char), cs)
     | [] => ([], [])) with
  | (sign, cs1) =>
    match parseIntPart cs1 with
    | none => none
    | some (ip, cs2) =>
      match parseFracPart cs2 with
      | none => none
      | some (fp, cs3) =>
        match parseExpPart cs3 with
        | none => none
        | some (ep, cs4) => some (String.mk (sign ++ ip ++ fp ++ ep), cs4)

mutual

/-- Parse one JSON value (after skipping leading whitespace). -/
def parseValue : Nat → List Char → Option (Json × List Char)
  | 0, _ => none
  | fuel + 1, cs =>
    match skipWs cs with
    | [] => none
    | c :: cs1 =>
      if c = quoteChar then
        match parseStringRest (fuel + 1) cs1 with
        | some (chars, rest) => some (Json.str (String.mk chars), rest)
        | none => none
      else if c = lbraceChar then
        match parseFields fuel cs1 with
        | some (fs, rest) => some (Json.obj fs, rest)
        | none => none
      else if c = '[' then
        match parseElems fuel cs1 with
        | some (js, rest) => some (Json.arr js, rest)
        | none => none
      else if c = 't' then
        match cs1 with
        | 'r' :: 'u' :: 'e' :: rest => some (Json.bool true, rest)
        | _ => none
      else if c = 'f' then
        match cs1 with
        | 'a' :: 'l' :: 's' :: 'e' :: rest => some (Json.bool false, rest)
        | _ => none
      else if c = 'n' then
        match cs1 with
        | 'u' :: 'l' :: 'l' :: rest => some (Json.null, rest)
        | _ => none
      else if c = '-' || c.isDigit then
        match parseNumber (c :: cs1) with
        | some (lex, rest) => some (Json.num lex, rest)
        | none => none
      else none

/-- Parse array elements, starting right after the opening bracket. -/
def parseElems : Nat → List Char → Option (List Json × List Char)
  | 0, _ => none
  | fuel + 1, cs =>
    match skipWs cs with
    | [] => none
    | c :: cs1 =>
      if c = ']' then some ([], cs1)
      else
        match parseValue fuel (c :: cs1) with
        | none => none
        | some (j, rest) =>
          match parseElemsMore fuel rest with
          | none => none
          | some (js, rest2) => some (j :: js, rest2)

/-- Parse the continuation of array elements, after a complete element. -/
def parseElemsMore : Nat → List Char → Option (List Json × List Char)
  | 0, _ => none
  | fuel + 1, cs =>
    match skipWs cs with
    | [] => none
    | c :: cs1 =>
      if c = ']' then some ([], cs1)
      else if c = ',' then
        match parseValue fuel cs1 with
        | none => none
        | some (j, rest) =>
          match parseElemsMore fuel rest with
          | none => none
          | some (js, rest2) => some (j :: js, rest2)
      else none

/-- Parse one object member: a string key, a colon, and a value. -/
def parseOneField : Nat → List Char → Option ((String × Json) × List Char)
  | 0, _ => none
  | fuel + 1, cs =>
    match skipWs cs with
    | [] => none
    | c :: cs1 =>
      if c = quoteChar then
        match parseStringRest (fuel + 1) cs1 with
        | none => none
        | some (key, rest) =>
          match skipWs rest with
          | [] => none
          | d :: rest2 =>
            if d = ':' then
              match parseValue fuel rest2 with
              | none => none
              | some (v, rest3) => some ((String.mk key, v), rest3)
            else none
      else none

/-- Parse object members, starting right after the opening brace. -/
def parseFields : Nat → List Char → Option (List (String × Json) × List Char)
  | 0, _ => none
  | fuel + 1, cs =>
    match skipWs cs with
    | [] => none
    | c :: cs1 =>
      if c = rbraceChar then some ([], cs1)
      else
        match parseOneField fuel (c :: cs1) with
        | none => none
        | some (f, rest) =>
          match parseFieldsMore fuel rest with
          | none => none
          | some (fs, rest2) => some (f :: fs, rest2)

/-- Parse the continuation of object members, after a complete member. -/
def parseFieldsMore : Nat → List Char → Option (List (String × Json) × List Char)
  | 0, _ => none
  | fuel + 1, cs =>
    match skipWs cs with
    | [] => none
    | c :: cs1 =>
      if c = rbraceChar then some ([], cs1)
      else if c = ',' then
        match parseOneField fuel cs1 with
        | none => none
        | some (f, rest) =>
          match parseFieldsMore fuel rest with
          | none => none
          | some (fs, rest2) => some (f :: fs, rest2)
      else none

end

/-- Model of `serde_json::from_str::<serde_json::Value>`: parse a complete
JSON document, allowing trailing whitespace only. -/
def parseJson (s : String) : Option Json :=
  match parseValue (s.length + 1) s.data with
  | none => none
  | some (j, rest) => if skipWs rest = [] then some j else none

/-- `handle_json_api_error` from src/lib.rs: `200` parses the body as JSON,
`500` is an internal error, every other status is an unknown error. -/
def handle_json_api_error (response : Response) : Except String Json :=
  if response.status = 200 then
    match response.bodyText with
    | none => .error "Error reading response body"
    | some response_body =>
      match parseJson response_body with
      | none => .error "Error deserializing JSON"
      | some json_value => .ok json_value
  else if response.status = 500 then .error APIError.InternalError.message
  else .error APIError.UnknownError.message

/-- `handle_response_status` from src/lib.rs: status-to-outcome mapping for
mutation calls, with the `400` branch keyed on the `api_path` argument. -/
def handle_response_status (response : Response) (api_path : String) : Except String Unit :=
  if response.status = 200 then .ok ()
  else if response.status = 204 then .ok ()
  else if response.status = 400 then
    if api_path = NAME_ENDPOINT then .error APIError.InvalidName.message
    else if api_path = HOSTNAME_ENDPOINT then .error APIError.InvalidHostname.message
    else if api_path = CHANGE_PORT_ENDPOINT then .error APIError.InvalidPort.message
    else if api_path = KEY_DATA_LIMIT_ENDPOINT ∨ api_path = ACCESS_KEYS_ENDPOINT then
      .error APIError.InvalidDataLimit.message
    else .error APIError.InvalidRequest.message
  else if response.status = 409 then .error APIError.PortConflict.message
  else if response.status = 404 then .error APIError.AccessKeyInexistent.message
  else if response.status = 500 then .error APIError.InternalError.message
  else .error APIError.UnknownError.message

/-- Body built by `change_hostname_for_access_keys`:
the hostname is interpolated verbatim into a JSON object literal. -/
def change_hostname_for_access_keys_body (hostname : String) : String :=
  "\x7b \"hostname\": \"" ++ hostname ++ "\" \x7d"

/-- Body built by `change_default_port_for_newly_created_access`. -/
def change_default_port_body (port : String) : String :=
  "\x7b \"port\": " ++ port ++ " \x7d"

/-- Body built by `set_data_transfer_limit_for_all_access_keys` and
`set_data_transfer_limit_by_id`. -/
def set_data_transfer_limit_body (byte : Nat) : String :=
  "\x7b \"limit\": \x7b \"bytes\": " ++ Nat.repr byte ++ " \x7d \x7d"

/-- Body built by `rename_server`:
the name is interpolated verbatim into a JSON object literal. -/
def rename_server_body (name : String) : String :=
  "\x7b \"name\": \"" ++ name ++ "\" \x7d"

/-- Body built by `change_name_for_access_key`:
the username is interpolated verbatim into a JSON object literal. -/
def change_name_for_access_key_body (username : String) : String :=
  "\x7b \"name\": \"" ++ username ++ "\" \x7d"

/-- Body built by `enable_or_disable_sharing_metrics`. -/
def enable_or_disable_sharing_metrics_body (metrics_enabled : Bool) : String :=
  "\x7b \"metricsEnabled\": " ++ (if metrics_enabled then "true" else "false") ++ " \x7d"

/-- The request issued by `change_hostname_for_access_keys`. -/
def change_hostname_for_access_keys_request (api_url hostname : String) : Request :=
  call_api_request api_url HOSTNAME_ENDPOINT .PUT (change_hostname_for_access_keys_body hostname)

/-- The request issued by `rename_server`. -/
def rename_server_request (api_url name : String) : Request :=
  call_api_request api_url NAME_ENDPOINT .PUT (rename_server_body name)

/-- The request issued by `change_name_for_access_key`:
the path is `format!("{}/{}/name", ACCESS_KEYS_ENDPOINT, id)`. -/
def change_name_for_access_key_request (api_url : String) (id : Nat) (username : String) : Request :=
  call_api_request api_url (ACCESS_KEYS_ENDPOINT ++ "/" ++ Nat.repr id ++ "/name") .PUT
    (change_name_for_access_key_body username)

/-- The request issued by `set_data_transfer_limit_by_id`:
the path is `format!("{}/{}/data-limit", ACCESS_KEYS_ENDPOINT, id)`. -/
def set_data_transfer_limit_by_id_request (api_url : String) (id byte : Nat) : Request :=
  call_api_request api_url (ACCESS_KEYS_ENDPOINT ++ "/" ++ Nat.repr id ++ "/data-limit") .PUT
    (set_data_transfer_limit_body byte)

/-- `get_server_info`: transport failure collapses to `UnknownServerError`,
otherwise the response is handled by `handle_json_api_error`. -/
def get_server_info (transport : Except TransportError Response) : Except String Json :=
  match transport with
  | .error _ => .error APIError.UnknownServerError.message
  | .ok response => handle_json_api_error response

/-- `change_hostname_for_access_keys`: dispatches on `HOSTNAME_ENDPOINT`. -/
def change_hostname_for_access_keys (hostname : String)
    (transport : Except TransportError Response) : Except String Unit :=
  match hostname, transport with
  | _, .error _ => .error APIError.UnknownServerError.message
  | _, .ok response => handle_response_status response HOSTNAME_ENDPOINT

/-- `change_default_port_for_newly_created_access`: dispatches on `CHANGE_PORT_ENDPOINT`. -/
def change_default_port_for_newly_created_access (port : String)
    (transport : Except TransportError Response) : Except String Unit :=
  match port, transport with
  | _, .error _ => .error APIError.UnknownServerError.message
  | _, .ok response => handle_response_status response CHANGE_PORT_ENDPOINT

/-- `set_data_transfer_limit_for_all_access_keys`: dispatches on `KEY_DATA_LIMIT_ENDPOINT`. -/
def set_data_transfer_limit_for_all_access_keys (byte : Nat)
    (transport : Except TransportError Response) : Except String Unit :=
  match byte, transport with
  | _, .error _ => .error APIError.UnknownServerError.message
  | _, .ok response => handle_response_status response KEY_DATA_LIMIT_ENDPOINT

/-- `remove_data_limit_for_all_access_keys`: dispatches on `KEY_DATA_LIMIT_ENDPOINT`. -/
def remove_data_limit_for_all_access_keys
    (transport : Except TransportError Response) : Except String Unit :=
  match transport with
  | .error _ => .error APIError.UnknownServerError.message
  | .ok response => handle_response_status response KEY_DATA_LIMIT_ENDPOINT

/-- `rename_server`: dispatches on `NAME_ENDPOINT`. -/
def rename_server (name : String)
    (transport : Except TransportError Response) : Except String Unit :=
  match name, transport with
  | _, .error _ => .error APIError.UnknownServerError.message
  | _, .ok response => handle_response_status response NAME_ENDPOINT

/-- `create_access_key`: the response is handled by `handle_json_api_error`. -/
def create_access_key (transport : Except TransportError Response) : Except String Json :=
  match transport with
  | .error _ => .error APIError.UnknownServerError.message
  | .ok response => handle_json_api_error response

/-- `list_access_keys`: the response is handled by `handle_json_api_error`. -/
def list_access_keys (transport : Except TransportError Response) : Except String Json :=
  match transport with
  | .error _ => .error APIError.UnknownServerError.message
  | .ok response => handle_json_api_error response

/-- `delete_access_key_by_id`: dispatches on `ACCESS_KEYS_ENDPOINT`. -/
def delete_access_key_by_id (id : Nat)
    (transport : Except TransportError Response) : Except String Unit :=
  match id, transport with
  | _, .error _ => .error APIError.UnknownServerError.message
  | _, .ok response => handle_response_status response ACCESS_KEYS_ENDPOINT

/-- `change_name_for_access_key`: dispatches on `ACCESS_KEYS_ENDPOINT`. -/
def change_name_for_access_key (id : Nat) (username : String)
    (transport : Except TransportError Response) : Except String Unit :=
  match id, username, transport with
  | _, _, .error _ => .error APIError.UnknownServerError.message
  | _, _, .ok response => handle_response_status response ACCESS_KEYS_ENDPOINT

/-- `set_data_transfer_limit_by_id`: dispatches on `ACCESS_KEYS_ENDPOINT`. -/
def set_data_transfer_limit_by_id (id byte : Nat)
    (transport : Except TransportError Response) : Except String Unit :=
  match id, byte, transport with
  | _, _, .error _ => .error APIError.UnknownServerError.message
  | _, _, .ok response => handle_response_status response ACCESS_KEYS_ENDPOINT

/-- `del_data_transfer_limit_by_id`: dispatches on `ACCESS_KEYS_ENDPOINT`. -/
def del_data_transfer_limit_by_id (id : Nat)
    (transport : Except TransportError Response) : Except String Unit :=
  match id, transport with
  | _, .error _ => .error APIError.UnknownServerError.message
  | _, .ok response => handle_response_status response ACCESS_KEYS_ENDPOINT

/-- `get_each_access_key_data_transferred`: the status handling is written
inline in the source and has no `500` branch: `200` parses the body, every
other status is an unknown error. -/
def get_each_access_key_data_transferred
    (transport : Except TransportError Response) : Except String Json :=
  match transport with
  | .error _ => .error APIError.UnknownServerError.message
  | .ok response =>
    if response.status = 200 then
      match response.bodyText with
      | none => .error "Error reading response body"
      | some response_body =>
        match parseJson response_body with
        | none => .error "Error deserializing JSON"
        | some json_value => .ok json_value
    else .error APIError.UnknownError.message

/-- `get_whether_metrics_is_being_shared`: the status handling is written
inline in the source and has no `500` branch: `200` parses the body, every
other status is an unknown error. -/
def get_whether_metrics_is_being_shared
    (transport : Except TransportError Response) : Except String Json :=
  match transport with
  | .error _ => .error APIError.UnknownServerError.message
  | .ok response =>
    if response.status = 200 then
      match response.bodyText with
      | none => .error "Error reading response body"
      | some response_body =>
        match parseJson response_body with
        | none => .error "Error deserializing JSON"
        | some json_value => .ok json_value
    else .error APIError.UnknownError.message

/-- `enable_or_disable_sharing_metrics`: the source passes
`ACCESS_KEYS_ENDPOINT` (not the metrics path) to `handle_response_status`. -/
def enable_or_disable_sharing_metrics (metrics_enabled : Bool)
    (transport : Except TransportError Response) : Except String Unit :=
  match metrics_enabled, transport with
  | _, .error _ => .error APIError.UnknownServerError.message
  | _, .ok response => handle_response_status response ACCESS_KEYS_ENDPOINT

/-! ## Theorems about the claims -/

/-- The static table of the spec sentence for the `400` status, keyed on the
endpoint path: name → InvalidName, hostname → InvalidHostname,
port-change → InvalidPort, data-limit and access-keys → InvalidDataLimit,
any other path → InvalidRequest.  Stated from the spec, to be compared with
`handle_response_status`. -/
def spec_bad_request_table (api_path : String) : APIError :=
  if api_path = NAME_ENDPOINT then .InvalidName
  else if api_path = HOSTNAME_ENDPOINT then .InvalidHostname
  else if api_path = CHANGE_PORT_ENDPOINT then .InvalidPort
  else if api_path = KEY_DATA_LIMIT_ENDPOINT ∨ api_path = ACCESS_KEYS_ENDPOINT then .InvalidDataLimit
  else .InvalidRequest

/-- C1: whenever a mutation call's response has status 400, the error
returned by the status handler is exactly the one chosen by the static
path-keyed table: the name endpoint yields InvalidName, the hostname
endpoint InvalidHostname, the port-change endpoint InvalidPort, the
data-limit and access-keys endpoints InvalidDataLimit, and any other path
InvalidRequest. -/
theorem claim1_bad_request_static_table
    (response : Response) (api_path : String) (h : response.status = 400) :
    handle_response_status response api_path =
      .error (spec_bad_request_table api_path).message := by
  simp only [handle_response_status, spec_bad_request_table, h,
    NAME_ENDPOINT, HOSTNAME_ENDPOINT, CHANGE_PORT_ENDPOINT,
    KEY_DATA_LIMIT_ENDPOINT, ACCESS_KEYS_ENDPOINT]
  by_cases h1 : api_path = "/name" <;>
    by_cases h2 : api_path = "/server/hostname-for-access-keys" <;>
      by_cases h3 : api_path = "/server/port-for-new-access-keys" <;>
        by_cases h4 : api_path = "/server/access-key-data-limit" ∨ api_path = "/access-keys" <;>
          simp [h1, h2, h3, h4, APIError.message]

/-- C1 witness: the theorem evaluated on a concrete 400 response to the
name endpoint. -/
theorem claim1_bad_request_static_table_witness :
    handle_response_status ⟨400, none⟩ NAME_ENDPOINT =
      .error (spec_bad_request_table NAME_ENDPOINT).message :=
  claim1_bad_request_static_table ⟨400, none⟩ NAME_ENDPOINT rfl

/-- C2 counterexample: a 409 response on the name endpoint — not the
port-change endpoint — still yields PortConflict, not UnknownError, so the
claim as stated is false. -/
theorem claim2_conflict_counterexample :
    handle_response_status ⟨409, none⟩ NAME_ENDPOINT =
      .error APIError.PortConflict.message ∧
    handle_response_status ⟨409, none⟩ NAME_ENDPOINT ≠
      .error APIError.UnknownError.message := by
  constructor
  · rfl
  · intro hco
    exact absurd (Except.error.inj hco) (by decide)

/-- C2 amended: a 409 response yields PortConflict on every endpoint,
regardless of the path passed to the status handler. -/
theorem claim2_conflict_amended
    (response : Response) (api_path : String) (h : response.status = 409) :
    handle_response_status response api_path = .error APIError.PortConflict.message := by
  simp only [handle_response_status, h]
  norm_num

/-- C2 amended witness: the theorem evaluated on a concrete 409 response
to the hostname endpoint. -/
theorem claim2_conflict_amended_witness :
    handle_response_status ⟨409, none⟩ HOSTNAME_ENDPOINT =
      .error APIError.PortConflict.message :=
  claim2_conflict_amended ⟨409, none⟩ HOSTNAME_ENDPOINT rfl

/-- C7: for every mutation call and every response status, the result is
success exactly when the status is 200 or 204, and every other status
yields the message of some error of the closed enumeration. -/
theorem claim7_mutation_success_iff
    (response : Response) (api_path : String) :
    (handle_response_status response api_path = .ok () ↔
      (response.status = 200 ∨ response.status = 204)) ∧
    (response.status ≠ 200 → response.status ≠ 204 →
      ∃ e : APIError, handle_response_status response api_path = .error e.message) := by
  have herr : response.status ≠ 200 → response.status ≠ 204 →
      ∃ e : APIError, handle_response_status response api_path = .error e.message := by
    intro h200 h204
    simp only [handle_response_status, if_neg h200, if_neg h204]
    split
    · split
      · exact ⟨APIError.InvalidName, rfl⟩
      · split
        · exact ⟨APIError.InvalidHostname, rfl⟩
        · split
          · exact ⟨APIError.InvalidPort, rfl⟩
          · split
            · exact ⟨APIError.InvalidDataLimit, rfl⟩
            · exact ⟨APIError.InvalidRequest, rfl⟩
    · split
      · exact ⟨APIError.PortConflict, rfl⟩
      · split
        · exact ⟨APIError.AccessKeyInexistent, rfl⟩
        · split
          · exact ⟨APIError.InternalError, rfl⟩
          · exact ⟨APIError.UnknownError, rfl⟩
  refine ⟨⟨?_, ?_⟩, herr⟩
  · intro h
    by_cases h200 : response.status = 200
    · exact Or.inl h200
    · by_cases h204 : response.status = 204
      · exact Or.inr h204
      · obtain ⟨e, he⟩ := herr h200 h204
        rw [he] at h
        exact Except.noConfusion h
  · intro hst
    rcases hst with h | h <;> simp [handle_response_status, h]

/-- C7 witness: success on a concrete 204 response, and an enumerated
error on a concrete 418 response. -/
theorem claim7_mutation_success_iff_witness :
    handle_response_status ⟨204, none⟩ NAME_ENDPOINT = .ok () ∧
    ∃ e : APIError,
      handle_response_status ⟨418, none⟩ NAME_ENDPOINT = .error e.message :=
  ⟨(claim7_mutation_success_iff ⟨204, none⟩ NAME_ENDPOINT).1.mpr (Or.inr rfl),
   (claim7_mutation_success_iff ⟨418, none⟩ NAME_ENDPOINT).2 (by decide) (by decide)⟩

/-- C10: a 404 response yields AccessKeyInexistent on every path, and in
particular on the non-access-key-scoped mutation operations: rename
server, change hostname, change default port, and set/remove the global
data limit. -/
theorem claim10_not_found_everywhere
    (response : Response) (api_path name hostname port : String) (byte : Nat)
    (h : response.status = 404) :
    handle_response_status response api_path = .error APIError.AccessKeyInexistent.message ∧
    rename_server name (.ok response) = .error APIError.AccessKeyInexistent.message ∧
    change_hostname_for_access_keys hostname (.ok response) =
      .error APIError.AccessKeyInexistent.message ∧
    change_default_port_for_newly_created_access port (.ok response) =
      .error APIError.AccessKeyInexistent.message ∧
    set_data_transfer_limit_for_all_access_keys byte (.ok response) =
      .error APIError.AccessKeyInexistent.message ∧
    remove_data_limit_for_all_access_keys (.ok response) =
      .error APIError.AccessKeyInexistent.message := by
  have key : ∀ p : String,
      handle_response_status response p = .error APIError.AccessKeyInexistent.message := by
    intro p
    simp only [handle_response_status, h]
    norm_num
  exact ⟨key api_path,
    key NAME_ENDPOINT,
    key HOSTNAME_ENDPOINT,
    key CHANGE_PORT_ENDPOINT,
    key KEY_DATA_LIMIT_ENDPOINT,
    key KEY_DATA_LIMIT_ENDPOINT⟩

/-- C10 witness: the theorem evaluated on a concrete 404 response. -/
theorem claim10_not_found_everywhere_witness :
    rename_server "box" (.ok ⟨404, none⟩) =
      .error APIError.AccessKeyInexistent.message :=
  (claim10_not_found_everywhere ⟨404, none⟩ SERVER_ENDPOINT "box" "h" "99" 5 rfl).2.1

/-- C3 counterexample: the metrics read for per-key transfer stats, given a
500 response, yields UnknownError, not the InternalError the claim
requires, so the claim as stated is false. -/
theorem claim3_metrics_read_500_counterexample :
    get_each_access_key_data_transferred (.ok ⟨500, some "\x7b\x7d"⟩) =
      .error APIError.UnknownError.message ∧
    get_each_access_key_data_transferred (.ok ⟨500, some "\x7b\x7d"⟩) ≠
      .error APIError.InternalError.message := by
  constructor
  · rfl
  · intro hco
    exact absurd (Except.error.inj hco) (by decide)

/-- C3 amended: for get_server_info, create_access_key and
list_access_keys, a 500 response yields InternalError, a 200 response
yields the parsed JSON body, and any other status yields UnknownError;
the two metrics reads yield the parsed JSON body on 200 and UnknownError
on every other status, including 500. -/
theorem claim3_json_status_mapping_amended (response : Response) :
    (response.status = 500 →
      get_server_info (.ok response) = .error APIError.InternalError.message ∧
      create_access_key (.ok response) = .error APIError.InternalError.message ∧
      list_access_keys (.ok response) = .error APIError.InternalError.message ∧
      get_each_access_key_data_transferred (.ok response) =
        .error APIError.UnknownError.message ∧
      get_whether_metrics_is_being_shared (.ok response) =
        .error APIError.UnknownError.message) ∧
    (∀ (s : String) (j : Json), response.status = 200 → response.bodyText = some s →
      parseJson s = some j →
      get_server_info (.ok response) = .ok j ∧
      create_access_key (.ok response) = .ok j ∧
      list_access_keys (.ok response) = .ok j ∧
      get_each_access_key_data_transferred (.ok response) = .ok j ∧
      get_whether_metrics_is_being_shared (.ok response) = .ok j) ∧
    (response.status ≠ 200 → response.status ≠ 500 →
      get_server_info (.ok response) = .error APIError.UnknownError.message ∧
      create_access_key (.ok response) = .error APIError.UnknownError.message ∧
      list_access_keys (.ok response) = .error APIError.UnknownError.message ∧
      get_each_access_key_data_transferred (.ok response) =
        .error APIError.UnknownError.message ∧
      get_whether_metrics_is_being_shared (.ok response) =
        .error APIError.UnknownError.message) := by
  refine ⟨?_, ?_, ?_⟩
  · intro h500
    refine ⟨?_, ?_, ?_, ?_, ?_⟩ <;>
      simp [get_server_info, create_access_key, list_access_keys,
        get_each_access_key_data_transferred, get_whether_metrics_is_being_shared,
        handle_json_api_error, h500]
  · intro s j h200 hbody hparse
    refine ⟨?_, ?_, ?_, ?_, ?_⟩ <;>
      simp [get_server_info, create_access_key, list_access_keys,
        get_each_access_key_data_transferred, get_whether_metrics_is_being_shared,
        handle_json_api_error, h200, hbody, hparse]
  · intro h200 h500
    refine ⟨?_, ?_, ?_, ?_, ?_⟩ <;>
      simp [get_server_info, create_access_key, list_access_keys,
        get_each_access_key_data_transferred, get_whether_metrics_is_being_shared,
        handle_json_api_error, if_neg h200, if_neg h500]

/-- C3 amended witness: each branch of the amended mapping evaluated on a
concrete response. -/
theorem claim3_json_status_mapping_amended_witness :
    get_server_info (.ok ⟨500, none⟩) = .error APIError.InternalError.message ∧
    get_each_access_key_data_transferred (.ok ⟨500, none⟩) =
      .error APIError.UnknownError.message ∧
    list_access_keys (.ok ⟨200, some "\x7b\x7d"⟩) = .ok (Json.obj []) ∧
    create_access_key (.ok ⟨404, none⟩) = .error APIError.UnknownError.message :=
  ⟨((claim3_json_status_mapping_amended ⟨500, none⟩).1 rfl).1,
   ((claim3_json_status_mapping_amended ⟨500, none⟩).1 rfl).2.2.2.1,
   (((claim3_json_status_mapping_amended ⟨200, some "\x7b\x7d"⟩).2.1)
     "\x7b\x7d" (Json.obj []) rfl rfl rfl).2.2.1,
   ((claim3_json_status_mapping_amended ⟨404, none⟩).2.2
     (by decide) (by decide)).2.1⟩

/-- C4: a 201 response to create_access_key — the success code documented
for the operation itself — is not treated as a success: the code hands it
to the JSON handler, which only accepts 200, so it comes back as
UnknownError with the body discarded. -/
theorem claim4_create_access_key_201_discarded :
    create_access_key (.ok ⟨201, some "\x7b\"id\":\"1\"\x7d"⟩) =
      .error APIError.UnknownError.message ∧
    ∀ j : Json, create_access_key (.ok ⟨201, some "\x7b\"id\":\"1\"\x7d"⟩) ≠ .ok j := by
  constructor
  · rfl
  · intro j hco
    exact Except.noConfusion (hco.symm.trans rfl)

/-- C5: a transport-level failure makes every operation of the client
return UnknownServerError, regardless of the failure's cause. -/
theorem claim5_transport_failure_unknown_server_error
    (e : TransportError) (hostname port name username : String)
    (id byte : Nat) (metrics_enabled : Bool) :
    get_server_info (.error e) = .error APIError.UnknownServerError.message ∧
    change_hostname_for_access_keys hostname (.error e) =
      .error APIError.UnknownServerError.message ∧
    change_default_port_for_newly_created_access port (.error e) =
      .error APIError.UnknownServerError.message ∧
    set_data_transfer_limit_for_all_access_keys byte (.error e) =
      .error APIError.UnknownServerError.message ∧
    remove_data_limit_for_all_access_keys (.error e) =
      .error APIError.UnknownServerError.message ∧
    rename_server name (.error e) = .error APIError.UnknownServerError.message ∧
    create_access_key (.error e) = .error APIError.UnknownServerError.message ∧
    list_access_keys (.error e) = .error APIError.UnknownServerError.message ∧
    delete_access_key_by_id id (.error e) = .error APIError.UnknownServerError.message ∧
    change_name_for_access_key id username (.error e) =
      .error APIError.UnknownServerError.message ∧
    set_data_transfer_limit_by_id id byte (.error e) =
      .error APIError.UnknownServerError.message ∧
    del_data_transfer_limit_by_id id (.error e) =
      .error APIError.UnknownServerError.message ∧
    get_each_access_key_data_transferred (.error e) =
      .error APIError.UnknownServerError.message ∧
    get_whether_metrics_is_being_shared (.error e) =
      .error APIError.UnknownServerError.message ∧
    enable_or_disable_sharing_metrics metrics_enabled (.error e) =
      .error APIError.UnknownServerError.message :=
  ⟨rfl, rfl, rfl, rfl, rfl, rfl, rfl, rfl, rfl, rfl, rfl, rfl, rfl, rfl, rfl⟩

/-- C6: a 400 response to the metrics-sharing toggle yields
InvalidDataLimit, not the InvalidRequest that both the claim and the
operation's own doc comment state: the source passes the access-keys
path, not the metrics path, to the status dispatcher. -/
theorem claim6_metrics_toggle_400_invalid_data_limit :
    enable_or_disable_sharing_metrics true (.ok ⟨400, none⟩) =
      .error APIError.InvalidDataLimit.message ∧
    enable_or_disable_sharing_metrics true (.ok ⟨400, none⟩) ≠
      .error APIError.InvalidRequest.message := by
  constructor
  · rfl
  · intro hco
    exact absurd (Except.error.inj hco) (by decide)

/-- C8: the three string-taking request bodies are built by interpolating
the argument verbatim between a fixed front and a fixed back piece, with
no escaping; consequently there is an input containing a double quote
whose three bodies all fail to parse as JSON. -/
theorem claim8_unescaped_interpolation_breaks_json :
    (∀ s : String, change_hostname_for_access_keys_body s =
      "\x7b \"hostname\": \"" ++ s ++ "\" \x7d") ∧
    (∀ s : String, rename_server_body s = "\x7b \"name\": \"" ++ s ++ "\" \x7d") ∧
    (∀ s : String, change_name_for_access_key_body s =
      "\x7b \"name\": \"" ++ s ++ "\" \x7d") ∧
    (∃ s : String, quoteChar ∈ s.data ∧
      parseJson (change_hostname_for_access_keys_body s) = none ∧
      parseJson (rename_server_body s) = none ∧
      parseJson (change_name_for_access_key_body s) = none) :=
  ⟨fun _ => rfl, fun _ => rfl, fun _ => rfl,
   ⟨"a\"b", by decide, rfl, rfl, rfl⟩⟩

/-- C9 counterexample: with id 7 and bytes 500000, the request body the
code builds is not the whitespace-free string the claim names, so the
claim as stated is false. -/
theorem claim9_request_shape_counterexample :
    set_data_transfer_limit_by_id_request "https://example.com/secret" 7 500000 ≠
      { method := .PUT,
        url := "https://example.com/secret" ++ "/access-keys/7/data-limit",
        body := "\x7b\"limit\":\x7b\"bytes\":500000\x7d\x7d" } := by
  decide

/-- C9 amended: with id 7 and bytes 500000, the code issues a PUT whose
URL is the base URL with /access-keys/7/data-limit appended and whose
body is the same JSON object written with spaces around the braces and
after the colons. -/
theorem claim9_request_shape_amended (api_url : String) :
    set_data_transfer_limit_by_id_request api_url 7 500000 =
      { method := .PUT,
        url := api_url ++ "/access-keys/7/data-limit",
        body := "\x7b \"limit\": \x7b \"bytes\": 500000 \x7d \x7d" } := by
  have hpath : ACCESS_KEYS_ENDPOINT ++ "/" ++ Nat.repr 7 ++ "/data-limit" =
      "/access-keys/7/data-limit" := by decide
  have hbody : set_data_transfer_limit_body 500000 =
      "\x7b \"limit\": \x7b \"bytes\": 500000 \x7d \x7d" := by decide
  simp [set_data_transfer_limit_by_id_request, call_api_request, hpath, hbody]

end OutlineApi
